import Mathlib

/-!
Shallow embedding of `xboto` (xyngular/py-xboto), file `xboto/dependencies.py`.

The subsystem under verification is the scoped lazy boto client/resource
cache:

* `BotoSession` (a `Dependency`) owns a lazily built `boto3.Session`
  (`_session`) and a handle cache `_boto_obj_store` keyed by descriptor
  (client/resource dependency) identity.
* `_BaseBotoClientOrResource` descriptors hold per-resource `_boto_kwargs`
  and build handles through the current `BotoSession`.
* A process-wide table `_dependency_classes` maps a normalized boto name to
  the lazily created descriptor class.
* `_Loader` facades (`BotoClients` / `BotoResources`) resolve attribute
  access through the table, the descriptor singleton and the current
  session.

Python objects are modelled by their identity (a `Nat` id) together with
their truthiness, since the cache-lookup in `_boto_obj_for_dependency`
tests the stored value for truthiness, not for presence.  Python dicts of
keyword arguments are modelled as functions `String → Option PyVal`
(`none` = key absent) where `PyVal := Option String` (`none` = Python
`None`).  Fresh object allocation is modelled by a counter: a newly
constructed object receives the current counter value as its id, so it is
distinct from every object whose id is below the counter.
-/

namespace Xboto

/-- A Python value appearing in a kwargs dict: either `None` or some
(opaque, here string-coded) value. -/
abbrev PyVal := Option String

/-- A Python object as far as this subsystem observes it: its identity and
its truthiness (boto clients/resources are plain objects, hence truthy;
but `_boto_obj_for_dependency` tests truthiness of cached values, so we
keep the flag). -/
structure PyObj where
  id : Nat
  truthy : Bool
  deriving DecidableEq, Repr

/-- A Python dict object: an identity plus its entries
(`none` = key absent; `some none` = key present with value `None`). -/
structure PyDict where
  id : Nat
  entries : String → Option PyVal

/-- The handle cache `BotoSession._boto_obj_store`: a dict keyed by
descriptor identity. -/
def Store := Nat → Option PyObj

/-- The empty dict `{}`. -/
def emptyStore : Store := fun _ => none

/-- `store[dep] = obj` on a Python dict. -/
def storeSet (s : Store) (dep : Nat) (obj : PyObj) : Store :=
  fun k => if k = dep then some obj else s k

/-- `store.pop(dep, None)` on a Python dict (the removal performed by
`BotoSession._reset_boto_obj_for_dependency`, dependencies.py:141-142). -/
def storePop (s : Store) (dep : Nat) : Store :=
  fun k => if k = dep then none else s k

/-- The test `if not force_create and (boto_obj := self._boto_obj_store.get(dependency)):`
(dependencies.py:134) succeeds only when the stored value exists AND is
truthy; this helper returns the stored value exactly in that case. -/
def truthyGet (s : Store) (dep : Nat) : Option PyObj :=
  match s dep with
  | some h => if h.truthy then some h else none
  | none => none

/-- `BotoSession._boto_obj_for_dependency` (dependencies.py:128-139):

    if not force_create and (boto_obj := self._boto_obj_store.get(dependency)):
        return boto_obj
    boto_obj = constructor()
    self._boto_obj_store[dependency] = boto_obj
    return boto_obj

`ctorResult` is the behaviour of `constructor()` when invoked: either a
constructed object or a raised exception (there is no try/except, so an
exception propagates before the store assignment runs).  The returned
`Bool` records whether `constructor()` was invoked. -/
def botoObjForDependency (store : Store) (dep : Nat)
    (ctorResult : Except String PyObj) (forceCreate : Bool) :
    Except String PyObj × Store × Bool :=
  match (if forceCreate then none else truthyGet store dep) with
  | some h => (.ok h, store, false)
  | none =>
    match ctorResult with
    | .ok obj => (.ok obj, storeSet store dep obj, true)
    | .error e => (.error e, store, true)

/-- Name normalization in `_BaseBotoClientOrResource._get_dependency_cls`
(dependencies.py:269-278):

    boto_name = boto_name.replace("_", "-")
    boto_name = boto_name.lower()
    if boto_name.endswith("-"):
        boto_name = boto_name[:-1]

Since the pattern `"_"` is a single character, `str.replace` is the
character-wise substitution; `str.lower()` agrees with `Char.toLower`
character-wise on these ASCII names; `endswith("-")` checks the last
character and `[:-1]` drops it. -/
def normalizeBotoName (botoName : String) : String :=
  let cs := botoName.data.map fun c => if c = '_' then '-' else c
  let ls := cs.map Char.toLower
  ⟨if ls.getLast? = some '-' then ls.dropLast else ls⟩

/-- The per-kind class table `_dependency_classes[boto_kind]`
(dependencies.py:343-346) together with the allocator of fresh class
identities (a created class is a fresh Python object). -/
structure Registry where
  table : String → Option Nat
  next : Nat

/-- `_BaseBotoClientOrResource._get_dependency_cls` (dependencies.py:266-289):
normalize the name, return the cached class if present, otherwise create a
new class, store it under the normalized name and return it. -/
def getDependencyCls (r : Registry) (botoName : String) : Nat × Registry :=
  let nm := normalizeBotoName botoName
  match r.table nm with
  | some depCls => (depCls, r)
  | none =>
    (r.next, ⟨fun k => if k = nm then some r.next else r.table k, r.next + 1⟩)

/-- First character is upper-case: the test `key[0].isupper()` of
`_LoaderMetaclass.__getattr__` (dependencies.py:353). -/
def firstCharUpper (s : String) : Bool :=
  match s.toList with
  | [] => false
  | c :: _ => c.isUpper

/-- The `AttributeError` message raised by `_LoaderMetaclass.__getattr__`
for a key that does not start with an upper-case character
(dependencies.py:354-357). -/
def loaderUpperErrMsg (key : String) : String :=
  "BotoClient/BotoResource classes start with an upper-case char, " ++
    "was instead given (" ++ key ++ ")."

/-- `_LoaderMetaclass.__getattr__` (dependencies.py:352-364): a class-level
attribute that is not found normally either resolves to the (possibly
newly created) descriptor class when it starts upper-case, or raises an
`AttributeError` naming the key.  (`_get_dependency_cls` cannot raise for
a nonempty key, so the `except` branch there is dead.) -/
def loaderMetaGetattr (r : Registry) (key : String) :
    Except String (Nat × Registry) :=
  if firstCharUpper key then .ok (getDependencyCls r key)
  else .error (loaderUpperErrMsg key)

/-- The state of one `BotoSession` dependency instance: the lazily built
`boto3.Session` object `_session` (by identity) and the handle cache
`_boto_obj_store`. -/
structure BotoSessionState where
  sessionObj : Option Nat
  store : Store

/-- A freshly created `BotoSession()` as produced by `__init__`
(dependencies.py:56-101): no session built yet, empty handle cache. -/
def freshBotoSession : BotoSessionState := ⟨none, emptyStore⟩

/-- The `BotoSession.session` property (dependencies.py:48-54): return the
already built session, or lazily build one (a fresh object, id drawn from
the allocator `n`) and remember it. -/
def sessionBuild (s : BotoSessionState) (n : Nat) :
    Nat × BotoSessionState × Nat :=
  match s.sessionObj with
  | some i => (i, s, n)
  | none => (n, { s with sessionObj := some n }, n + 1)

/-- `BotoSession._reset_boto_obj_for_dependency` (dependencies.py:141-142):
`self._boto_obj_store.pop(dependency, None)`.  The session object is not
touched. -/
def resetBotoObjForDependency (s : BotoSessionState) (dep : Nat) :
    BotoSessionState :=
  { s with store := storePop s.store dep }

/-- The ambient state the xboto operations run in:

* `registry` — the `_dependency_classes` table for the facade's kind;
* `base` — the default process/thread-level `BotoSession` returned by
  `BotoSession.grab()` when nothing is injected;
* `overrides` — the stack of injected `BotoSession` overrides
  (`with BotoSession(...):`), innermost first; `grab()` returns its head;
* `deps` — the `_boto_kwargs` dict of the current descriptor singleton of
  each descriptor class (keyed by class identity);
* `next` — the allocator of fresh Python object identities: every object
  created so far has id `< next`. -/
structure World where
  registry : Registry
  base : BotoSessionState
  overrides : List BotoSessionState
  deps : Nat → PyDict
  next : Nat

/-- `BotoSession.grab()` / the `boto_session` proxy: the innermost injected
override, or the default base session. -/
def currentSession (w : World) : BotoSessionState :=
  w.overrides.headD w.base

/-- Write back the mutated state of the current `BotoSession` (Python
mutates the grabbed object in place). -/
def setCurrent (w : World) (s : BotoSessionState) : World :=
  match w.overrides with
  | [] => { w with base := s }
  | _ :: t => { w with overrides := s :: t }

/-- Entering `with BotoSession():` — a fresh `BotoSession()` becomes the
current dependency (its `__init__` gives it an empty `_boto_obj_store` and
no `_session`). -/
def pushScope (w : World) : World :=
  { w with overrides := freshBotoSession :: w.overrides }

/-- Leaving the `with BotoSession():` block — the previous current session
is restored. -/
def popScope (w : World) : World :=
  { w with overrides := w.overrides.tail }

/-- Whether the descriptor's stored `_boto_kwargs` contain an explicit
`endpoint_url` setting. -/
def hasEndpointOverride (w : World) (dep : Nat) : Bool :=
  ((w.deps dep).entries "endpoint_url").isSome

/-- `_BaseBotoClientOrResource.get` (dependencies.py:242-263).  `get` calls
`BotoSession.grab()._boto_obj_for_dependency(self, constructor)` without a
`force_create` argument, so `force_create` keeps its default `False` and
the cache is always consulted first (the stored value must be truthy, see
`truthyGet`).  On a miss, `constructor()` runs: it reads
`boto_session.session` (lazily building the session object) and calls the
boto creation method, which returns a fresh boto client/resource object;
the result is stored in the cache.  The returned `Bool` records whether
`constructor()` was invoked. -/
def descriptorGet (w : World) (dep : Nat) : PyObj × World × Bool :=
  let s := currentSession w
  match truthyGet s.store dep with
  | some h => (h, w, false)
  | none =>
    let (_, s1, n1) := sessionBuild s w.next
    let obj : PyObj := ⟨n1, true⟩
    (obj, setCurrent { w with next := n1 + 1 }
            { s1 with store := storeSet s1.store dep obj }, true)

/-- Facade instance attribute access `boto_clients.<name>` /
`boto_resources.<name>` for a resource name: `_Loader.__getattribute__`
(dependencies.py:427-441) falls back to `_lookup`, which runs
`get_dependency_cls(name).grab().get()` — resolve (or lazily create) the
descriptor class for the normalized name, take its current singleton
instance, and ask it for the handle. -/
def facadeAccess (w : World) (botoName : String) : PyObj × World × Bool :=
  let (dep, reg) := getDependencyCls w.registry botoName
  descriptorGet { w with registry := reg } dep

/-- The `boto_kwargs` getter property (dependencies.py:295-305):
`return self._boto_kwargs.copy()` — a fresh dict with the same entries. -/
def getDepKwargs (w : World) (dep : Nat) : PyDict × World :=
  (⟨w.next, (w.deps dep).entries⟩, { w with next := w.next + 1 })

/-- The `boto_kwargs` setter property (dependencies.py:307-320):
`self._boto_kwargs = {**value}` (a fresh dict holding a copy of the given
entries) followed by `self.reset()`, which runs
`BotoSession.grab()._reset_boto_obj_for_dependency(self)`
(dependencies.py:236-240). -/
def setDepKwargs (w : World) (dep : Nat) (value : PyDict) : World :=
  let w1 : World :=
    { w with
        deps := fun d => if d = dep then ⟨w.next, value.entries⟩ else w.deps d
        next := w.next + 1 }
  setCurrent w1 (resetBotoObjForDependency (currentSession w1) dep)

/-- The kwargs-collection pattern shared by `BotoSession.__init__`
(dependencies.py:92-100) and `_BaseBotoClientOrResource.__init__`
(dependencies.py:224-229):

    args = {k: v for k, v in locals().items() if v is not None}
    args.pop('self', None); args.pop(<extra-kwargs name>, None); ...
    self._kwargs = {**args, **extra_kwargs}

`named` lists the declared keyword parameters (in declaration order) with
the values they were called with (`none` = Python `None`, which is also
the declared default of each of them); `extras` is the catch-all
`**kwargs` dict.  The result is the stored kwargs mapping: named
parameters survive only when not `None`, extra keys survive verbatim
(a later `**extras` entry overrides a named one on a key clash). -/
def filteredKwargs (named extras : List (String × PyVal)) :
    String → Option PyVal :=
  fun k =>
    match extras.lookup k with
    | some v => some v
    | none => (named.filter (fun p => p.2.isSome)).lookup k

/-- The declared keyword parameters of `BotoSession.__init__`
(dependencies.py:56-66), minus `reset_session_when_activated` and the
catch-all `**session_kwargs`, which are popped from `args`. -/
structure SessionInitArgs where
  awsAccessKeyId : PyVal
  awsSecretAccessKey : PyVal
  awsSessionToken : PyVal
  regionName : PyVal
  botocoreSession : PyVal
  profileName : PyVal

/-- `BotoSession.__init__`'s `locals()`-derived `args` dict source, in
parameter order. -/
def sessionNamedArgs (a : SessionInitArgs) : List (String × PyVal) :=
  [("aws_access_key_id", a.awsAccessKeyId),
   ("aws_secret_access_key", a.awsSecretAccessKey),
   ("aws_session_token", a.awsSessionToken),
   ("region_name", a.regionName),
   ("botocore_session", a.botocoreSession),
   ("profile_name", a.profileName)]

/-- The `_session_kwargs` mapping stored by `BotoSession.__init__`
(dependencies.py:100): `{**args, **session_kwargs}`. -/
def sessionInitKwargs (a : SessionInitArgs) (extras : List (String × PyVal)) :
    String → Option PyVal :=
  filteredKwargs (sessionNamedArgs a) extras

/-- The declared keyword parameters of
`_BaseBotoClientOrResource.__init__` (dependencies.py:165-176), minus the
catch-all `**boto_kwargs`. -/
structure DescriptorInitArgs where
  regionName : PyVal
  apiVersion : PyVal
  useSsl : PyVal
  verify : PyVal
  endpointUrl : PyVal
  awsAccessKeyId : PyVal
  awsSecretAccessKey : PyVal
  awsSessionToken : PyVal
  config : PyVal

/-- `_BaseBotoClientOrResource.__init__`'s `locals()`-derived `args` dict
source, in parameter order. -/
def descriptorNamedArgs (a : DescriptorInitArgs) : List (String × PyVal) :=
  [("region_name", a.regionName),
   ("api_version", a.apiVersion),
   ("use_ssl", a.useSsl),
   ("verify", a.verify),
   ("endpoint_url", a.endpointUrl),
   ("aws_access_key_id", a.awsAccessKeyId),
   ("aws_secret_access_key", a.awsSecretAccessKey),
   ("aws_session_token", a.awsSessionToken),
   ("config", a.config)]

/-- The `_boto_kwargs` mapping stored by
`_BaseBotoClientOrResource.__init__` (dependencies.py:229):
`{**args, **boto_kwargs}`. -/
def descriptorInitKwargs (a : DescriptorInitArgs)
    (extras : List (String × PyVal)) : String → Option PyVal :=
  filteredKwargs (descriptorNamedArgs a) extras

/-! Helper lemmas. -/

theorem currentSession_setCurrent (w : World) (s : BotoSessionState) :
    currentSession (setCurrent w s) = s := by
  cases h : w.overrides with
  | nil => simp [currentSession, setCurrent, h]
  | cons a t => simp [currentSession, setCurrent, h]

theorem registry_setCurrent (w : World) (s : BotoSessionState) :
    (setCurrent w s).registry = w.registry := by
  cases h : w.overrides with
  | nil => simp [setCurrent, h]
  | cons a t => simp [setCurrent, h]

theorem deps_setCurrent (w : World) (s : BotoSessionState) :
    (setCurrent w s).deps = w.deps := by
  cases h : w.overrides with
  | nil => simp [setCurrent, h]
  | cons a t => simp [setCurrent, h]

theorem storeSet_same (s : Store) (dep : Nat) (obj : PyObj) :
    storeSet s dep obj dep = some obj := by
  simp [storeSet]

theorem truthyGet_storeSet_truthy (s : Store) (dep : Nat) (obj : PyObj)
    (h : obj.truthy = true) : truthyGet (storeSet s dep obj) dep = some obj := by
  simp [truthyGet, storeSet_same, h]

/-- A second `get()` on the same descriptor, immediately after a first one,
returns the very handle the first call returned, without invoking the
constructor, and leaves the world unchanged. -/
theorem descriptorGet_again (w : World) (dep : Nat) :
    descriptorGet (descriptorGet w dep).2.1 dep =
      ((descriptorGet w dep).1, (descriptorGet w dep).2.1, false) := by
  cases htg : truthyGet (currentSession w).store dep with
  | some h =>
    have h1 : descriptorGet w dep = (h, w, false) := by
      simp [descriptorGet, htg]
    simp [h1, descriptorGet, htg]
  | none =>
    cases hso : (currentSession w).sessionObj with
    | some i =>
      have h1 : descriptorGet w dep =
          (⟨w.next, true⟩,
           setCurrent { w with next := w.next + 1 }
             { currentSession w with
                 store := storeSet (currentSession w).store dep ⟨w.next, true⟩ },
           true) := by
        simp [descriptorGet, htg, sessionBuild, hso]
      rw [h1]
      simp only [descriptorGet, currentSession_setCurrent,
        truthyGet_storeSet_truthy]
    | none =>
      have h1 : descriptorGet w dep =
          (⟨w.next + 1, true⟩,
           setCurrent { w with next := w.next + 1 + 1 }
             { sessionObj := some w.next,
               store := storeSet (currentSession w).store dep
                 ⟨w.next + 1, true⟩ },
           true) := by
        simp [descriptorGet, htg, sessionBuild, hso]
      rw [h1]
      simp only [descriptorGet, currentSession_setCurrent,
        truthyGet_storeSet_truthy]

/-- `descriptorGet` never touches the class registry. -/
theorem descriptorGet_registry (w : World) (dep : Nat) :
    (descriptorGet w dep).2.1.registry = w.registry := by
  cases htg : truthyGet (currentSession w).store dep with
  | some h => simp [descriptorGet, htg]
  | none =>
    cases hso : (currentSession w).sessionObj with
    | some i => simp [descriptorGet, htg, sessionBuild, hso, registry_setCurrent]
    | none => simp [descriptorGet, htg, sessionBuild, hso, registry_setCurrent]

/-- After `_get_dependency_cls(raw)`, the class table maps the normalized
name to the returned class. -/
theorem getDependencyCls_table_after (r : Registry) (raw : String) :
    (getDependencyCls r raw).2.table (normalizeBotoName raw) =
      some (getDependencyCls r raw).1 := by
  cases h : r.table (normalizeBotoName raw) with
  | some c => simp [getDependencyCls, h]
  | none => simp [getDependencyCls, h]

/-- `_get_dependency_cls(raw)` on a table that already holds the
normalized name returns the stored class and leaves the registry
unchanged. -/
theorem getDependencyCls_hit (r : Registry) (raw : String) (c : Nat)
    (h : r.table (normalizeBotoName raw) = some c) :
    getDependencyCls r raw = (c, r) := by
  simp [getDependencyCls, h]

theorem lookup_eq_none_of_not_mem_keys (l : List (String × PyVal))
    (k : String) (h : k ∉ l.map Prod.fst) : l.lookup k = none := by
  induction l with
  | nil => rfl
  | cons p t ih =>
    obtain ⟨a, v⟩ := p
    simp only [List.map_cons, List.mem_cons, not_or] at h
    simp [List.lookup_cons, beq_false_of_ne h.1, ih h.2]

theorem keys_filter_subset (l : List (String × PyVal))
    (p : String × PyVal → Bool) (k : String)
    (h : k ∉ l.map Prod.fst) : k ∉ (l.filter p).map Prod.fst := by
  intro hk
  apply h
  rcases List.mem_map.mp hk with ⟨q, hq, hqk⟩
  exact List.mem_map.mpr ⟨q, List.mem_of_mem_filter hq, hqk⟩

/-- Looking a key up in the None-filtered dict of named arguments: with
pairwise-distinct parameter names, the key is found with its value exactly
when that value is not `None`. -/
theorem lookup_filter_isSome (l : List (String × PyVal)) (k : String)
    (hnd : (l.map Prod.fst).Nodup) :
    (l.filter fun p => p.2.isSome).lookup k =
      match l.lookup k with
      | some v => if v.isSome then some v else none
      | none => none := by
  induction l with
  | nil => rfl
  | cons p t ih =>
    obtain ⟨a, v⟩ := p
    simp only [List.map_cons, List.nodup_cons] at hnd
    rcases hnd with ⟨ha, hnd⟩
    by_cases hk : a = k
    · subst hk
      cases hv : v.isSome with
      | true =>
        simp [List.filter_cons, hv, List.lookup_cons]
      | false =>
        have hnone : ((t.filter fun p => p.2.isSome).lookup a) = none :=
          lookup_eq_none_of_not_mem_keys _ _ (keys_filter_subset _ _ _ ha)
        simp [List.filter_cons, hv, List.lookup_cons, hnone]
    · have hne : (k == a) = false := beq_false_of_ne fun he => hk he.symm
      cases hv : v.isSome with
      | true => simp [List.filter_cons, hv, List.lookup_cons, hne, ih hnd]
      | false => simp [List.filter_cons, hv, List.lookup_cons, hne, ih hnd]

theorem next_setCurrent (w : World) (s : BotoSessionState) :
    (setCurrent w s).next = w.next := by
  cases h : w.overrides with
  | nil => simp [setCurrent, h]
  | cons a t => simp [setCurrent, h]

/-! Claim theorems. -/

/-- C4 (counterexample): `get_or_create` does NOT return the stored cache
entry whenever one is present — the lookup
`if not force_create and (boto_obj := self._boto_obj_store.get(dependency))`
tests the stored value for truthiness, so with a falsy handle stored for
descriptor 7 and `force_create=False`, the constructor IS invoked and its
result is returned instead of the present entry. -/
theorem c4_get_or_create_counterexample :
    (storeSet emptyStore 7 ⟨3, false⟩) 7 = some ⟨3, false⟩ ∧
    (botoObjForDependency (storeSet emptyStore 7 ⟨3, false⟩) 7
        (.ok ⟨9, true⟩) false).2.2 = true ∧
    (botoObjForDependency (storeSet emptyStore 7 ⟨3, false⟩) 7
        (.ok ⟨9, true⟩) false).1 = .ok ⟨9, true⟩ :=
  ⟨rfl, rfl, rfl⟩

/-- C4 (amended): `get_or_create(d, c, force_create=false)` returns the
cache entry stored for `d` without invoking `c` whenever a (Python-)truthy
entry is present; whenever no truthy entry is present, or `force_create`
is true, it invokes `c`, stores the result keyed by `d`'s identity, and
returns that result. -/
theorem c4_get_or_create_truthy_cache :
    ∀ (store : Store) (dep : Nat) (res : PyObj) (forceCreate : Bool),
      (∀ h, forceCreate = false → store dep = some h → h.truthy = true →
        botoObjForDependency store dep (.ok res) forceCreate =
          (.ok h, store, false)) ∧
      (forceCreate = true ∨ truthyGet store dep = none →
        botoObjForDependency store dep (.ok res) forceCreate =
          (.ok res, storeSet store dep res, true)) := by
  intro store dep res fc
  constructor
  · intro h hfc hs ht
    subst hfc
    simp [botoObjForDependency, truthyGet, hs, ht]
  · rintro (hfc | htg)
    · subst hfc
      simp [botoObjForDependency]
    · cases fc with
      | true => simp [botoObjForDependency]
      | false => simp [botoObjForDependency, htg]

/-- C4 amended-claim witness: a truthy cached handle is returned untouched
without construction; a miss constructs, stores and returns. -/
theorem c4_get_or_create_truthy_cache_witness :
    botoObjForDependency (storeSet emptyStore 2 ⟨4, true⟩) 2
        (.ok ⟨8, true⟩) false
      = (.ok ⟨4, true⟩, storeSet emptyStore 2 ⟨4, true⟩, false) ∧
    botoObjForDependency emptyStore 3 (.ok ⟨8, true⟩) false
      = (.ok ⟨8, true⟩, storeSet emptyStore 3 ⟨8, true⟩, true) :=
  ⟨(c4_get_or_create_truthy_cache _ 2 ⟨8, true⟩ false).1 ⟨4, true⟩ rfl
      (by decide) rfl,
   (c4_get_or_create_truthy_cache _ 3 ⟨8, true⟩ false).2 (Or.inr rfl)⟩

/-- C6: when the handle constructor raises during lazy construction (and
construction is actually reached: no truthy cache hit, or
`force_create=true`), the error propagates unchanged out of
`_boto_obj_for_dependency` and the handle cache is left exactly as it was
— no entry is stored for the failed descriptor. -/
theorem c6_ctor_error_leaves_cache_unchanged :
    ∀ (store : Store) (dep : Nat) (e : String) (forceCreate : Bool),
      forceCreate = true ∨ truthyGet store dep = none →
      botoObjForDependency store dep (.error e) forceCreate =
        (.error e, store, true) := by
  intro store dep e fc h
  rcases h with hfc | htg
  · subst hfc
    simp [botoObjForDependency]
  · cases fc with
    | true => simp [botoObjForDependency]
    | false => simp [botoObjForDependency, htg]

/-- C6 witness: a failing constructor on an empty cache propagates the
error and leaves the cache empty. -/
theorem c6_ctor_error_leaves_cache_unchanged_witness :
    botoObjForDependency emptyStore 5 (.error "boom") false
      = (.error "boom", emptyStore, true) :=
  c6_ctor_error_leaves_cache_unchanged emptyStore 5 "boom" false (Or.inr rfl)

/-- C7: `_reset_boto_obj_for_dependency(d)` — called directly via
`reset()` or from the `boto_kwargs` setter — removes at most the single
cache entry keyed by `d`; the scope's underlying session object and every
other descriptor's cache entry are unchanged.  The second half states the
same for the setter path `setDepKwargs` (assigning the configuration
property), on the current scope. -/
theorem c7_reset_handle_frame :
    ∀ (s : BotoSessionState) (dep : Nat) (w : World) (d : Nat) (v : PyDict),
      ((resetBotoObjForDependency s dep).store dep = none ∧
       (∀ k, k ≠ dep →
         (resetBotoObjForDependency s dep).store k = s.store k) ∧
       (resetBotoObjForDependency s dep).sessionObj = s.sessionObj) ∧
      ((currentSession (setDepKwargs w d v)).store d = none ∧
       (∀ k, k ≠ d →
         (currentSession (setDepKwargs w d v)).store k
           = (currentSession w).store k) ∧
       (currentSession (setDepKwargs w d v)).sessionObj
         = (currentSession w).sessionObj) := by
  intro s dep w d v
  refine ⟨⟨?_, ?_, ?_⟩, ?_⟩
  · simp [resetBotoObjForDependency, storePop]
  · intro k hk
    simp [resetBotoObjForDependency, storePop, hk]
  · simp [resetBotoObjForDependency]
  · rw [setDepKwargs]
    rw [currentSession_setCurrent]
    refine ⟨?_, ?_, ?_⟩
    · simp [resetBotoObjForDependency, storePop, currentSession]
    · intro k hk
      simp [resetBotoObjForDependency, storePop, hk, currentSession]
    · simp [resetBotoObjForDependency, currentSession]

/-- C7 witness: resetting descriptor 1 on a session caching handles for
descriptors 1 and 3 drops only entry 1 and keeps the session object; the
`boto_kwargs`-setter path behaves the same on the current scope. -/
theorem c7_reset_handle_frame_witness :
    (resetBotoObjForDependency
        ⟨some 4, storeSet (storeSet emptyStore 1 ⟨2, true⟩) 3 ⟨5, true⟩⟩
        1).store 1 = none ∧
    (resetBotoObjForDependency
        ⟨some 4, storeSet (storeSet emptyStore 1 ⟨2, true⟩) 3 ⟨5, true⟩⟩
        1).store 3 = some ⟨5, true⟩ ∧
    (resetBotoObjForDependency
        ⟨some 4, storeSet (storeSet emptyStore 1 ⟨2, true⟩) 3 ⟨5, true⟩⟩
        1).sessionObj = some 4 := by
  have h := c7_reset_handle_frame
    ⟨some 4, storeSet (storeSet emptyStore 1 ⟨2, true⟩) 3 ⟨5, true⟩⟩ 1
    ⟨⟨fun _ => none, 0⟩, freshBotoSession, [], fun _ => ⟨0, fun _ => none⟩, 0⟩
    0 ⟨0, fun _ => none⟩
  exact ⟨h.1.1, (h.1.2.1 3 (by decide)).trans (by decide), h.1.2.2⟩

/-- C8: after assigning a dict `v` to the `boto_kwargs` property, reading
the property back yields a dict with exactly `v`'s entries, but the dict
read back is a different object from `v` and from the stored dict, and the
stored dict is a different object from `v`.  Python mutation acts on one
object identity only, so mutating `v` or the returned copy afterwards
cannot alter the stored configuration.  (`v.id < w.next` says `v` is an
already existing object.) -/
theorem c8_boto_kwargs_defensive_copy :
    ∀ (w : World) (dep : Nat) (v : PyDict), v.id < w.next →
      (∀ k, ((getDepKwargs (setDepKwargs w dep v) dep).1).entries k
          = v.entries k) ∧
      ((getDepKwargs (setDepKwargs w dep v) dep).1).id ≠ v.id ∧
      ((getDepKwargs (setDepKwargs w dep v) dep).1).id
        ≠ ((setDepKwargs w dep v).deps dep).id ∧
      ((setDepKwargs w dep v).deps dep).id ≠ v.id := by
  intro w dep v hv
  have hdeps : (setDepKwargs w dep v).deps dep = ⟨w.next, v.entries⟩ := by
    rw [setDepKwargs, deps_setCurrent]
    simp
  have hnext : (setDepKwargs w dep v).next = w.next + 1 := by
    rw [setDepKwargs, next_setCurrent]
  refine ⟨?_, ?_, ?_, ?_⟩
  · intro k
    simp [getDepKwargs, hdeps]
  · simp only [getDepKwargs, hnext]
    omega
  · simp only [getDepKwargs, hnext, hdeps]
    omega
  · rw [hdeps]
    simp only
    omega

/-- C8 witness: setting `region_name` to `us-west-5` through the property
stores a copy holding that entry, and reading it back gives an equal dict
under three pairwise distinct object identities. -/
theorem c8_boto_kwargs_defensive_copy_witness :
    (((getDepKwargs (setDepKwargs
        ⟨⟨fun _ => none, 0⟩, freshBotoSession, [], fun _ => ⟨0, fun _ => none⟩, 1⟩
        0 ⟨0, fun k => if k = "region_name" then some (some "us-west-5") else none⟩)
        0).1).entries "region_name" = some (some "us-west-5")) ∧
    (((getDepKwargs (setDepKwargs
        ⟨⟨fun _ => none, 0⟩, freshBotoSession, [], fun _ => ⟨0, fun _ => none⟩, 1⟩
        0 ⟨0, fun k => if k = "region_name" then some (some "us-west-5") else none⟩)
        0).1).id ≠ 0) := by
  have h := c8_boto_kwargs_defensive_copy
    ⟨⟨fun _ => none, 0⟩, freshBotoSession, [], fun _ => ⟨0, fun _ => none⟩, 1⟩
    0 ⟨0, fun k => if k = "region_name" then some (some "us-west-5") else none⟩
    (by decide)
  exact ⟨(h.1 "region_name").trans (by decide), h.2.1⟩

/-- C5: name normalization replaces every `_` with `-`, lowercases, and
strips at most one trailing `-` (shown on `foo_bar`, `FOO_BAR`, `lambda_`
and `a--`); and any two raw names that normalize to the same string
resolve — for one kind's registry — to the reference-identical descriptor
class. -/
theorem c5_normalization_descriptor_identity :
    normalizeBotoName "foo_bar" = "foo-bar" ∧
    normalizeBotoName "FOO_BAR" = "foo-bar" ∧
    normalizeBotoName "lambda_" = "lambda" ∧
    normalizeBotoName "a--" = "a-" ∧
    ∀ (r : Registry) (raw1 raw2 : String),
      normalizeBotoName raw1 = normalizeBotoName raw2 →
      (getDependencyCls (getDependencyCls r raw1).2 raw2).1
        = (getDependencyCls r raw1).1 := by
  refine ⟨by decide, by decide, by decide, by decide, ?_⟩
  intro r raw1 raw2 heq
  have h := getDependencyCls_table_after r raw1
  rw [heq] at h
  rw [getDependencyCls_hit _ raw2 _ h]

/-- C5 witness: on an empty registry, looking up `foo_bar` and then
`FOO-BAR` (which normalize identically) returns the identical descriptor
class. -/
theorem c5_normalization_descriptor_identity_witness :
    (getDependencyCls
        (getDependencyCls ⟨fun _ => none, 0⟩ "foo_bar").2 "FOO-BAR").1
      = (getDependencyCls ⟨fun _ => none, 0⟩ "foo_bar").1 :=
  c5_normalization_descriptor_identity.2.2.2.2
    ⟨fun _ => none, 0⟩ "foo_bar" "FOO-BAR" (by decide)

/-- C9: a class-level lookup through `_LoaderMetaclass.__getattr__` with a
key whose first character is upper-case always succeeds and returns the
descriptor class — for a never-seen name the class is created on demand
(it is the registry's fresh class, stored under the normalized name);
with a key whose first character is not upper-case it raises the
`AttributeError` whose message names the offending key.  (`key ≠ ""`
because an attribute name is never empty; on `""` the Python code would
raise `IndexError` at `key[0]` instead.) -/
theorem c9_loader_class_lookup :
    ∀ (r : Registry) (key : String), key ≠ "" →
      (firstCharUpper key = true →
        loaderMetaGetattr r key = .ok (getDependencyCls r key) ∧
        (r.table (normalizeBotoName key) = none →
          (getDependencyCls r key).1 = r.next ∧
          (getDependencyCls r key).2.table (normalizeBotoName key)
            = some r.next)) ∧
      (firstCharUpper key = false →
        loaderMetaGetattr r key = .error (loaderUpperErrMsg key)) := by
  intro r key _
  constructor
  · intro hu
    refine ⟨by simp [loaderMetaGetattr, hu], ?_⟩
    intro hmiss
    constructor <;> simp [getDependencyCls, hmiss]
  · intro hl
    simp [loaderMetaGetattr, hl]

/-- C9 witness: the never-seen capitalized key `NeverSeenSvc` succeeds on
an empty registry; the lower-case key `ssm` raises the error naming it. -/
theorem c9_loader_class_lookup_witness :
    (loaderMetaGetattr ⟨fun _ => none, 0⟩ "NeverSeenSvc").isOk = true ∧
    loaderMetaGetattr ⟨fun _ => none, 0⟩ "ssm"
      = .error (loaderUpperErrMsg "ssm") := by
  have h1 := c9_loader_class_lookup ⟨fun _ => none, 0⟩ "NeverSeenSvc"
    (by decide)
  have h2 := c9_loader_class_lookup ⟨fun _ => none, 0⟩ "ssm" (by decide)
  refine ⟨?_, h2.2 (by decide)⟩
  rw [(h1.1 (by decide)).1]
  rfl

/-- C10: both `__init__`s store, for every key, the `**extras` entry when
present (whatever its value, `None` included), and otherwise the named
option's value exactly when it is not `None`; a recognized named option
passed as `None` (its declared default, i.e. the same as omitting it)
leaves no entry in the stored configuration mapping. -/
theorem c10_init_null_named_options_dropped :
    ∀ (a : SessionInitArgs) (b : DescriptorInitArgs)
      (extras : List (String × PyVal)) (k : String),
      sessionInitKwargs a extras k =
        (match extras.lookup k with
         | some v => some v
         | none =>
           match (sessionNamedArgs a).lookup k with
           | some v => if v.isSome then some v else none
           | none => none) ∧
      descriptorInitKwargs b extras k =
        (match extras.lookup k with
         | some v => some v
         | none =>
           match (descriptorNamedArgs b).lookup k with
           | some v => if v.isSome then some v else none
           | none => none) := by
  intro a b extras k
  constructor
  · have hs := lookup_filter_isSome (sessionNamedArgs a) k
      (by simp only [sessionNamedArgs, List.map_cons, List.map_nil]; decide)
    rw [sessionInitKwargs]
    simp only [filteredKwargs]
    cases hx : extras.lookup k with
    | some v => rfl
    | none => exact hs
  · have hd := lookup_filter_isSome (descriptorNamedArgs b) k
      (by simp only [descriptorNamedArgs, List.map_cons, List.map_nil]; decide)
    rw [descriptorInitKwargs]
    simp only [filteredKwargs]
    cases hx : extras.lookup k with
    | some v => rfl
    | none => exact hd

/-- Facade access on a registry that already holds the (normalized) name
reduces to `get()` on the registered descriptor. -/
theorem facadeAccess_hit (w : World) (raw : String) (dep : Nat)
    (htab : w.registry.table (normalizeBotoName raw) = some dep) :
    facadeAccess w raw = descriptorGet w dep := by
  show descriptorGet
      { w with registry := (getDependencyCls w.registry raw).2 }
      (getDependencyCls w.registry raw).1 = descriptorGet w dep
  rw [getDependencyCls_hit _ raw dep htab]

/-- C3: two successive facade attribute accesses for the same resource
name — with no scope override, reset, or configuration change in between
— return the same handle object by reference (and the second access does
not invoke the constructor). -/
theorem c3_repeated_facade_access_same_handle :
    ∀ (w : World) (botoName : String),
      (facadeAccess (facadeAccess w botoName).2.1 botoName).1
        = (facadeAccess w botoName).1 ∧
      (facadeAccess (facadeAccess w botoName).2.1 botoName).2.2 = false := by
  intro w raw
  have htab := getDependencyCls_table_after w.registry raw
  have h1 : facadeAccess w raw =
      descriptorGet { w with registry := (getDependencyCls w.registry raw).2 }
        (getDependencyCls w.registry raw).1 := rfl
  have hreg : (facadeAccess w raw).2.1.registry
      = (getDependencyCls w.registry raw).2 := by
    rw [h1, descriptorGet_registry]
  have h2 : facadeAccess (facadeAccess w raw).2.1 raw
      = descriptorGet (facadeAccess w raw).2.1
          (getDependencyCls w.registry raw).1 := by
    refine facadeAccess_hit _ raw _ ?_
    rw [hreg]
    exact htab
  rw [h2, h1, descriptorGet_again]
  exact ⟨rfl, rfl⟩

/-- C1 (counterexample): for a descriptor whose configuration contains no
explicit `endpoint_url` override, a repeated `get()` does NOT construct a
new handle — `get()` never passes `force_create`, so the second call
returns the first call's handle from the cache without invoking the
constructor. -/
theorem c1_get_counterexample :
    hasEndpointOverride
      ⟨⟨fun _ => none, 0⟩, freshBotoSession, [], fun _ => ⟨0, fun _ => none⟩, 0⟩
      0 = false ∧
    (descriptorGet (descriptorGet
      ⟨⟨fun _ => none, 0⟩, freshBotoSession, [], fun _ => ⟨0, fun _ => none⟩, 0⟩
      0).2.1 0).1
    = (descriptorGet
      ⟨⟨fun _ => none, 0⟩, freshBotoSession, [], fun _ => ⟨0, fun _ => none⟩, 0⟩
      0).1 ∧
    (descriptorGet (descriptorGet
      ⟨⟨fun _ => none, 0⟩, freshBotoSession, [], fun _ => ⟨0, fun _ => none⟩, 0⟩
      0).2.1 0).2.2 = false := by
  refine ⟨rfl, ?_, ?_⟩ <;> rw [descriptorGet_again]

/-- C1 (amended): `get()` never passes `force_create` to
`_boto_obj_for_dependency`, so caching is the same with and without an
explicit `endpoint_url` override: a repeated `get()` on any descriptor —
whatever `hasEndpointOverride` says — returns the cached handle and does
not invoke the constructor. -/
theorem c1_get_always_cached :
    ∀ (w : World) (dep : Nat) (b : Bool),
      hasEndpointOverride w dep = b →
      (descriptorGet (descriptorGet w dep).2.1 dep).1
        = (descriptorGet w dep).1 ∧
      (descriptorGet (descriptorGet w dep).2.1 dep).2.2 = false := by
  intro w dep b _
  rw [descriptorGet_again]
  exact ⟨rfl, rfl⟩

/-- C1 amended-claim witness: a descriptor carrying an explicit
`endpoint_url` override also returns its cached handle on repeated
`get()`. -/
theorem c1_get_always_cached_witness :
    (descriptorGet (descriptorGet
      ⟨⟨fun _ => none, 0⟩, freshBotoSession, [],
        fun _ => ⟨0, fun k => if k = "endpoint_url"
          then some (some "http://localhost:321") else none⟩, 0⟩
      0).2.1 0).1
    = (descriptorGet
      ⟨⟨fun _ => none, 0⟩, freshBotoSession, [],
        fun _ => ⟨0, fun k => if k = "endpoint_url"
          then some (some "http://localhost:321") else none⟩, 0⟩
      0).1 :=
  (c1_get_always_cached
    ⟨⟨fun _ => none, 0⟩, freshBotoSession, [],
      fun _ => ⟨0, fun k => if k = "endpoint_url"
        then some (some "http://localhost:321") else none⟩, 0⟩
    0 true (by decide)).1

/-- C2: with a handle `h` cached for descriptor `dep` in the current
scope, pushing a `BotoSession` override and accessing the facade yields a
handle that is not reference-identical to `h`; after the override exits
(and the enclosing scope was never reset), accessing the facade returns
exactly `h` again. -/
theorem c2_scope_override_isolation :
    ∀ (w : World) (botoName : String) (dep : Nat) (h : PyObj),
      w.registry.table (normalizeBotoName botoName) = some dep →
      (currentSession w).store dep = some h →
      h.truthy = true →
      h.id < w.next →
      (facadeAccess (pushScope w) botoName).1 ≠ h ∧
      (facadeAccess (popScope (facadeAccess (pushScope w) botoName).2.1)
          botoName).1 = h := by
  intro w raw dep h htab hstore htruthy hlt
  have hfa1 : facadeAccess (pushScope w) raw
      = descriptorGet (pushScope w) dep :=
    facadeAccess_hit _ raw dep htab
  have hdg : descriptorGet (pushScope w) dep =
      (⟨w.next + 1, true⟩,
       { w with
           overrides :=
             (⟨some w.next, storeSet emptyStore dep ⟨w.next + 1, true⟩⟩ :
                BotoSessionState) :: w.overrides
           next := w.next + 1 + 1 },
       true) := by
    simp [descriptorGet, pushScope, currentSession, freshBotoSession,
      truthyGet, emptyStore, sessionBuild, setCurrent]
  have hw3 : popScope (facadeAccess (pushScope w) raw).2.1
      = { w with next := w.next + 1 + 1 } := by
    rw [hfa1, hdg]
    simp [popScope]
  constructor
  · rw [hfa1, hdg]
    intro heq
    have : w.next + 1 = h.id := congrArg PyObj.id heq
    omega
  · rw [hw3]
    have htab3 : ({ w with next := w.next + 1 + 1 } : World).registry.table
        (normalizeBotoName raw) = some dep := htab
    rw [facadeAccess_hit _ raw dep htab3]
    have hcur : currentSession ({ w with next := w.next + 1 + 1 } : World)
        = currentSession w := rfl
    simp [descriptorGet, hcur, truthyGet, hstore, htruthy]

/-- C2 witness: concrete run — cache a handle in the base scope, push an
override, access (getting a different handle), pop, access again (getting
the original handle back by reference). -/
theorem c2_scope_override_isolation_witness :
    (facadeAccess (pushScope
      ⟨⟨fun k => if k = "ssm" then some 0 else none, 1⟩,
        ⟨some 0, storeSet emptyStore 0 ⟨1, true⟩⟩, [],
        fun _ => ⟨0, fun _ => none⟩, 2⟩) "ssm").1 ≠ ⟨1, true⟩ ∧
    (facadeAccess (popScope (facadeAccess (pushScope
      ⟨⟨fun k => if k = "ssm" then some 0 else none, 1⟩,
        ⟨some 0, storeSet emptyStore 0 ⟨1, true⟩⟩, [],
        fun _ => ⟨0, fun _ => none⟩, 2⟩) "ssm").2.1) "ssm").1 = ⟨1, true⟩ :=
  c2_scope_override_isolation
    ⟨⟨fun k => if k = "ssm" then some 0 else none, 1⟩,
      ⟨some 0, storeSet emptyStore 0 ⟨1, true⟩⟩, [],
      fun _ => ⟨0, fun _ => none⟩, 2⟩
    "ssm" 0 ⟨1, true⟩ (by decide) (by decide) rfl (by decide)

end Xboto
